import Mathlib

/-
Verification of the kaleracle collaborative price-prediction DAO.

The development shallowly embeds the decision logic of the repository's
API routes (`src/app/api/resolve/route.ts`, the prepare-transaction,
create-team, join-team and user-team routes) and, where the Soroban
contract itself is absent from the snapshot (only `CONTRACT_DOCS.md`
describes it), models the contract entry points from the specification.

Prices, which are JavaScript numbers in the source, are embedded as
rationals; the comparison and scaling logic of the source is exact at
this granularity.  Integer quantities (KALE stroops, percentages) are
embedded as `Int`, with JavaScript `BigInt` division rendered as
`Int.tdiv` (truncation toward zero, which is `BigInt` semantics).
-/

deriving instance DecidableEq for Except

namespace Kaleracle

/-! ### Price Oracle Adapter — `ReflectorClient` in `src/app/api/resolve/route.ts` -/

/-- Price data returned by `ReflectorClient.getLastPrice`
(interface `ReflectorPriceData` in `route.ts`). -/
structure ReflectorPriceData where
  price : ℚ
  timestamp : ℕ
  deriving DecidableEq, Repr

/-- The error taxonomy entry the spec requires of the oracle adapter.
Declared so the claimed behaviour (`OracleDataUnavailable` on failure)
can be stated; the route's `getLastPrice` never produces it. -/
inductive OracleError where
  | oracleDataUnavailable
  deriving DecidableEq, Repr

/-- Outcome of the Soroban `simulateTransaction` call inside
`getLastPrice`, as the surrounding TypeScript observes it:
the call throws (`catch` at route.ts:117), the response parses to a
numeric price (route.ts:81–98), or no price can be extracted
(`price` stays `0`, route.ts:77/100). -/
inductive SimulationOutcome where
  | fetchError
  | parsedPrice (price : ℚ) (timestamp : ℕ)
  | parseFailure
  deriving DecidableEq, Repr

/-- `generateMockPrice`, route.ts:140–152: base price per asset symbol. -/
def basePrice (assetSymbol : String) : ℚ :=
  if assetSymbol = "EUR/USD" then 1.08
  else if assetSymbol = "BTC/USD" then 45000
  else if assetSymbol = "ETH/USD" then 2500
  else 1.0

/-- `generateMockPrice`, route.ts:150–151: `basePrice * (1 + variation)`
where `variation` is drawn from `(Math.random() - 0.5) * 0.02`; the
random draw is a parameter here. -/
def generateMockPrice (assetSymbol : String) (variation : ℚ) : ℚ :=
  basePrice assetSymbol * (1 + variation)

/-- `ReflectorClient.getLastPrice`, route.ts:37–125.  When the simulated
oracle read yields a positive parsed price it is returned; when parsing
fails, yields a non-positive value, or the call throws, the route falls
back to `generateMockPrice` — it never returns an error. -/
def getLastPrice (assetSymbol : String) (sim : SimulationOutcome)
    (now : ℕ) (variation : ℚ) : Except OracleError ReflectorPriceData :=
  match sim with
  | .parsedPrice price ts =>
      if 0 < price then .ok ⟨price, ts⟩
      else .ok ⟨generateMockPrice assetSymbol variation, now⟩
  | .parseFailure => .ok ⟨generateMockPrice assetSymbol variation, now⟩
  | .fetchError => .ok ⟨generateMockPrice assetSymbol variation, now⟩

/-! ### Resolution endpoint — `GET` in `src/app/api/resolve/route.ts` -/

/-- The prediction fields the resolve endpoint parses out of the
`get_prediction` contract response (route.ts:247–249, 269–297). -/
structure PredictionView where
  asset : String
  prediction : Bool
  resolved : Bool
  deriving DecidableEq, Repr

/-- The JSON payload of a successful resolution response
(route.ts:372–393).  `contractResolved` is the `contractData.resolved`
field, hardcoded `false` at route.ts:389. -/
structure ResolveSuccess where
  outcome : Bool
  currentPrice : ℚ
  historicalPrice : ℚ
  rewardsDistributed : Bool
  contractResolved : Bool
  deriving DecidableEq, Repr

/-- Responses of the resolve endpoint relevant to resolution logic:
the prediction was not found in the contract (route.ts:315–330), or a
resolution payload is returned (route.ts:372–393). -/
inductive ResolveResult where
  | predictionNotSubmitted
  | resolvedJson (r : ResolveSuccess)
  deriving DecidableEq, Repr

/-- Route.ts:356: `const historicalPrice = currentPriceData.price * 0.995`. -/
def historicalPriceOf (currentPrice : ℚ) : ℚ :=
  currentPrice * 0.995

/-- Route.ts:357: `const actualPriceWentUp = currentPriceData.price > historicalPrice`. -/
def actualPriceWentUp (currentPrice historicalPrice : ℚ) : Bool :=
  decide (currentPrice > historicalPrice)

/-- Route.ts:360: `const predictionCorrect = predictedDirection === actualPriceWentUp`. -/
def predictionCorrect (predictedDirection : Bool) (currentPrice historicalPrice : ℚ) : Bool :=
  predictedDirection == actualPriceWentUp currentPrice historicalPrice

/-- The resolution path of `GET` in route.ts (lines 315–393) as a function
of the parsed prediction data and the current price obtained from the
oracle client.  The parsed `resolved` flag is never consulted, the
on-chain `resolve_prediction` call is commented out (route.ts:397–482),
and the payload's `contractData.resolved` is hardcoded `false`. -/
def resolveEndpoint (predictionData : Option PredictionView) (currentPrice : ℚ) :
    ResolveResult :=
  match predictionData with
  | none => .predictionNotSubmitted
  | some p =>
      let hist := historicalPriceOf currentPrice
      let correct := predictionCorrect p.prediction currentPrice hist
      .resolvedJson ⟨correct, currentPrice, hist, correct, false⟩

/-- A parsed prediction that is already resolved, for exercising the
endpoint's (missing) `AlreadyResolved` guard. -/
def resolvedPredictionView : PredictionView :=
  ⟨"EUR/USD", true, true⟩

/-! ### Stake computation — `POST` in the prepare-transaction route
(`src/unnamed/part_001`, lines 39–284) -/

/-- Errors of the staking path of the prepare-transaction route:
the percentage-range rejection at part_001:63–68 and the
"Insufficient KALE balance for staking" rejection at part_001:123–128
(the route-level rendering of `LowBalance`). -/
inductive StakeError where
  | invalidStakePercentage
  | lowBalance
  deriving DecidableEq, Repr

/-- The balance the route assigns to `kaleBalance` (part_001:111):
an estimated constant, standing in for the user's token balance. -/
def estimatedKaleBalance : Int := 1000000000

/-- Part_001:120–121: `(kaleBalance * BigInt(stakePercentage)) / BigInt(100)`;
`BigInt` division truncates toward zero, hence `Int.tdiv`. -/
def stakeAmountOf (kaleBalance stakePercentage : Int) : Int :=
  Int.tdiv (kaleBalance * stakePercentage) 100

/-- The staking decision logic of the route, parameterised by the value
held in its `kaleBalance` variable: reject percentages with
`stakePercentage < 0 || stakePercentage > 100` (part_001:63), then
reject a non-positive computed amount (part_001:123), else commit the
computed amount. -/
def prepareStake (kaleBalance stakePercentage : Int) : Except StakeError Int :=
  if stakePercentage < 0 ∨ 100 < stakePercentage then .error .invalidStakePercentage
  else if stakeAmountOf kaleBalance stakePercentage ≤ 0 then .error .lowBalance
  else .ok (stakeAmountOf kaleBalance stakePercentage)

/-- Part_001:131: `` `${body.teamName}_${Date.now()}_${Math.random().toString(36).substring(7)}` ``.
The reachable values of `randomSuffix` are the tails of base-36
fractional expansions, i.e. strings over the digits 0–9 and the
lower-case letters a–z only. -/
def derivePredictionId (teamName : String) (nowMillis : ℕ) (randomSuffix : String) : String :=
  teamName ++ "_" ++ toString nowMillis ++ "_" ++ randomSuffix

/-- Strings `Math.random().toString(36).substring(7)` can produce:
digits and lower-case letters only (never an underscore). -/
def isBase36Suffix (s : String) : Bool :=
  s.data.all fun c => c.isDigit || c.isLower

/-- The collision-freedom property claim C8 asserts of the id
derivation: over any run — a sequence of invocations, each observing a
team name, the `Date.now()` millisecond (non-decreasing across the run)
and a random base-36 suffix — distinct invocations derive distinct ids.
Nothing in the code prevents two invocations from observing the same
millisecond and the same random draw, so this property fails. -/
def IdDerivationCollisionFree : Prop :=
  ∀ env : ℕ → String × ℕ × String,
    (∀ k, isBase36Suffix (env k).2.2 = true) →
    (∀ k l, k ≤ l → (env k).2.1 ≤ (env l).2.1) →
    ∀ i j, i ≠ j →
      derivePredictionId (env i).1 (env i).2.1 (env i).2.2
        ≠ derivePredictionId (env j).1 (env j).2.1 (env j).2.2

/-- A run in which two invocations for team "alpha" land in the same
millisecond and draw the same random suffix — possible in the program,
since `Date.now()` has millisecond resolution and consecutive
`Math.random()` draws can truncate to the same `substring(7)`. -/
def sameDrawRun : ℕ → String × ℕ × String :=
  fun _ => ("alpha", 1700000000000, "k3j9q")

/-! ### Team registry and prediction registry state

The Soroban contract source (`contracts/dao/src/lib.rs`) is not part of
the snapshot; only `CONTRACT_DOCS.md`, its build script and its callers
are.  The entry points below are therefore modelled from the
specification, with the guard order taken from the API routes that
mirror them (`src/unnamed/part_002`, `src/unnamed/part_003`). -/

/-- Modelled from the spec: the persistent registry state of the missing
DAO contract — `Teams[name]` (name, ordered member list) and the
membership index `UserTeams[address]` (spec §3, §6). -/
structure Registry where
  teams : List (String × List String)
  userTeams : List (String × String)
  deriving DecidableEq, Repr

/-- The initial, empty registry. -/
def emptyRegistry : Registry := ⟨[], []⟩

/-- Modelled from the spec: `Teams[name]` lookup of the missing contract
(`get_team` returns the record or a not-found signal, spec §4.1). -/
def lookupTeam (s : Registry) (name : String) : Option (List String) :=
  (s.teams.find? (fun t => t.1 == name)).map (·.2)

/-- Modelled from the spec: `UserTeams[address]` lookup of the missing
contract (`get_user_team`, spec §4.1: team name or "no team"). -/
def getUserTeam (s : Registry) (addr : String) : Option String :=
  (s.userTeams.find? (fun e => e.1 == addr)).map (·.2)

/-- Error taxonomy of the team registry (spec §7). -/
inductive TeamError where
  | teamAlreadyExists
  | alreadyInTeam
  | teamNotFound
  deriving DecidableEq, Repr

/-- Modelled from the spec: `form_team(name, members)` of the missing
contract (spec §4.1) — fail with `TeamAlreadyExists` if the name is
taken, with `AlreadyInTeam` if any member already has a membership
mapping, else create the team record and populate the membership index
for every member.  The guard order matches the create-team route
(part_003:91–183). -/
def form_team (s : Registry) (name : String) (members : List String) :
    Except TeamError Registry :=
  if (lookupTeam s name).isSome then .error .teamAlreadyExists
  else if members.any (fun m => (getUserTeam s m).isSome) then .error .alreadyInTeam
  else .ok ⟨(name, members) :: s.teams,
            members.map (fun m => (m, name)) ++ s.userTeams⟩

/-- Run one `form_team` call against the store: on failure the
transaction rolls back and the state is unchanged (spec §7). -/
def applyFormTeam (s : Registry) (call : String × List String) : Registry :=
  match form_team s call.1 call.2 with
  | .ok s2 => s2
  | .error _ => s

/-- Run a sequence of `form_team` calls. -/
def runFormTeams (s : Registry) (calls : List (String × List String)) : Registry :=
  calls.foldl applyFormTeam s

/-- One-team-per-address: the membership index never maps an address to
two different teams (spec §3, §8). -/
def AtMostOneTeam (s : Registry) : Prop :=
  ∀ a t₁ t₂, (a, t₁) ∈ s.userTeams → (a, t₂) ∈ s.userTeams → t₁ = t₂

/-- The membership index agrees with the teams' member sets (spec §3:
"kept consistent with Team.members by construction"). -/
def IndexConsistent (s : Registry) : Prop :=
  ∀ a t, (a, t) ∈ s.userTeams ↔ ∃ ms, (t, ms) ∈ s.teams ∧ a ∈ ms

/-- The registry invariant of claim C7. -/
def RegistryInv (s : Registry) : Prop :=
  AtMostOneTeam s ∧ IndexConsistent s

/-- A registry holding team "alpha" with single member "M"
(scenario A/E of spec §8). -/
def alphaRegistry : Registry :=
  ⟨[("alpha", ["M"])], [("M", "alpha")]⟩

/-! ### get_user_team route — `getUserTeam` in `src/unnamed/part_001`
(lines 336–532) -/

/-- The JSON body the user-team route returns (part_001:432–437,
493–499): always `success: true`, with `teamName` either `null` or the
team's name. -/
structure UserTeamResponse where
  success : Bool
  teamName : Option String
  message : String
  deriving DecidableEq, Repr

/-- The route's mapping from the contract's `get_user_team` return value
to its response: `scvVoid` (no team) yields an explicit null-team
success (part_001:429–438), a returned name yields a success carrying it
(part_001:493–499).  The Buffer-decoding of the name is taken as exact. -/
def getUserTeamRoute (retval : Option String) : UserTeamResponse :=
  match retval with
  | none => ⟨true, none, "User is not a member of any team"⟩
  | some t => ⟨true, some t, "Team membership found"⟩

/-- The whole read path: simulate `get_user_team` against the registry
state and render the response.  The call performs no writes, so the
state component is returned unchanged. -/
def get_user_team_call (s : Registry) (addr : String) : UserTeamResponse × Registry :=
  (getUserTeamRoute (getUserTeam s addr), s)

/-! ### Prediction registry -/

/-- The `Prediction` record of the missing contract, as documented in
`CONTRACT_DOCS.md` (Data Structures) and spec §3. -/
structure PredictionRecord where
  team_name : String
  asset : String
  prediction : Bool
  stake_amount : Int
  stake_percentage : Int
  predictor : String
  timestamp : ℕ
  resolved : Bool
  outcome : Option Bool
  deriving DecidableEq, Repr

/-- Error taxonomy of `make_prediction` (spec §4.3, §7). -/
inductive PredictionError where
  | predictionExists
  | teamNotFound
  | unauthorized
  | invalidStakePercentage
  deriving DecidableEq, Repr

/-- The `Predictions[id]` table. -/
abbrev PredictionStore := List (String × PredictionRecord)

/-- Lookup in the `Predictions[id]` table. -/
def lookupPrediction (preds : PredictionStore) (id : String) : Option PredictionRecord :=
  (preds.find? (fun p => p.1 == id)).map (·.2)

/-- Modelled from the spec: `make_prediction` of the missing contract
(spec §4.3) — fail with `PredictionExists` on a used id, `TeamNotFound`
on an absent team, `Unauthorized` if the predictor is not a member,
`InvalidStakePercentage` out of range; else record the prediction Open. -/
def make_prediction (preds : PredictionStore) (reg : Registry) (id team asset : String)
    (direction : Bool) (stakeAmt pct : Int) (predictor : String) (now : ℕ) :
    Except PredictionError PredictionStore :=
  if (lookupPrediction preds id).isSome then .error .predictionExists
  else
    match lookupTeam reg team with
    | none => .error .teamNotFound
    | some ms =>
        if ¬ predictor ∈ ms then .error .unauthorized
        else if pct ≤ 0 ∨ 100 < pct then .error .invalidStakePercentage
        else .ok ((id, ⟨team, asset, direction, stakeAmt, pct, predictor, now, false, none⟩)
                    :: preds)

/-- A sample stored prediction "p1" (scenario B of spec §8). -/
def p1Record : PredictionRecord :=
  ⟨"alpha", "EUR/USD", true, 500000, 50, "M", 0, false, none⟩

/-! ## Helper lemmas -/

theorem getUserTeam_eq_none_iff {s : Registry} {a : String} :
    getUserTeam s a = none ↔ ∀ t, (a, t) ∉ s.userTeams := by
  unfold getUserTeam
  rw [Option.map_eq_none', List.find?_eq_none]
  constructor
  · intro h t hmem
    have := h (a, t) hmem
    simp at this
  · intro h x hx
    simp only [beq_iff_eq]
    intro hxa
    exact h x.2 (by cases x with | mk x1 x2 => simp only at hxa; subst hxa; exact hx)

theorem form_team_ok_inv {s s2 : Registry} {name : String} {members : List String}
    (hft : form_team s name members = .ok s2) (h : RegistryInv s) : RegistryInv s2 := by
  obtain ⟨hone, hcons⟩ := h
  unfold form_team at hft
  by_cases h1 : (lookupTeam s name).isSome
  · simp [h1] at hft
  · by_cases h2 : members.any (fun m => (getUserTeam s m).isSome)
    · simp [h1, h2] at hft
    · simp only [h1, Bool.false_eq_true, if_false, h2, Except.ok.injEq] at hft
      have hnomem : ∀ m ∈ members, getUserTeam s m = none := by
        intro m hm
        have hne : ¬ ((getUserTeam s m).isSome = true) := by
          intro hsome
          exact h2 (List.any_eq_true.mpr ⟨m, hm, hsome⟩)
        exact Option.not_isSome_iff_eq_none.mp hne
      subst hft
      constructor
      · intro a t₁ t₂ hm1 hm2
        simp only [List.mem_append, List.mem_map] at hm1 hm2
        rcases hm1 with ⟨m1, hm1m, he1⟩ | hold1
        · rcases hm2 with ⟨m2, hm2m, he2⟩ | hold2
          · injection he1 with hA1 hB1
            injection he2 with hA2 hB2
            rw [← hB1, ← hB2]
          · injection he1 with hA1 hB1
            subst hA1
            exact absurd hold2 (getUserTeam_eq_none_iff.mp (hnomem m1 hm1m) t₂)
        · rcases hm2 with ⟨m2, hm2m, he2⟩ | hold2
          · injection he2 with hA2 hB2
            subst hA2
            exact absurd hold1 (getUserTeam_eq_none_iff.mp (hnomem m2 hm2m) t₁)
          · exact hone a t₁ t₂ hold1 hold2
      · intro a t
        simp only [List.mem_append, List.mem_map, List.mem_cons]
        constructor
        · rintro (⟨m, hmm, he⟩ | hold)
          · cases he
            exact ⟨members, Or.inl rfl, hmm⟩
          · obtain ⟨ms, hms, hams⟩ := (hcons a t).mp hold
            exact ⟨ms, Or.inr hms, hams⟩
        · rintro ⟨ms, hms | hms, hams⟩
          · cases hms
            exact Or.inl ⟨a, hams, rfl⟩
          · exact Or.inr ((hcons a t).mpr ⟨ms, hms, hams⟩)

theorem applyFormTeam_inv {s : Registry} (c : String × List String)
    (h : RegistryInv s) : RegistryInv (applyFormTeam s c) := by
  unfold applyFormTeam
  cases hft : form_team s c.1 c.2 with
  | error e => exact h
  | ok s2 => exact form_team_ok_inv hft h

theorem runFormTeams_inv (calls : List (String × List String)) :
    ∀ s : Registry, RegistryInv s → RegistryInv (runFormTeams s calls) := by
  induction calls with
  | nil => exact fun s h => h
  | cons c cs ih =>
      intro s h
      have h2 : runFormTeams s (c :: cs) = runFormTeams (applyFormTeam s c) cs := rfl
      rw [h2]
      exact ih _ (applyFormTeam_inv c h)

theorem registryInv_empty : RegistryInv emptyRegistry := by
  constructor
  · intro a t₁ t₂ h1 h2
    simp [emptyRegistry] at h1
  · intro a t
    simp [emptyRegistry]

theorem idDerivation_not_collisionFree : ¬ IdDerivationCollisionFree := by
  intro h
  exact h sameDrawRun (fun k => show isBase36Suffix "k3j9q" = true by decide)
    (fun k l hkl => le_refl _) 0 1 (by decide) rfl

/-! ## Claim theorems -/

/-- Claim C1: every resolution computes the actual direction as
`current_price > reference_price` with strict inequality (equal prices
count as no rise), the outcome equals
`predicted_direction == actual_direction` — also through the full
endpoint, whose reference price is its derived historical price — and in
particular a rise prediction with reference price 1.0800 and current
price 1.0850 resolves to outcome `true`. -/
theorem resolution_outcome_strict_direction (p : PredictionView) (cur ref : ℚ) :
    (predictionCorrect p.prediction cur ref = true ↔ (p.prediction = true ↔ ref < cur))
    ∧ (cur = ref → actualPriceWentUp cur ref = false)
    ∧ (∀ r, resolveEndpoint (some p) cur = .resolvedJson r →
        r.outcome = predictionCorrect p.prediction cur (historicalPriceOf cur))
    ∧ predictionCorrect true 1.0850 1.0800 = true := by
  refine ⟨?_, ?_, ?_, ?_⟩
  · cases hp : p.prediction <;>
      simp [predictionCorrect, actualPriceWentUp, gt_iff_lt, hp]
  · intro h
    subst h
    simp [actualPriceWentUp]
  · intro r hr
    simp only [resolveEndpoint, ResolveResult.resolvedJson.injEq] at hr
    rw [← hr]
  · have h : (1.0800 : ℚ) < 1.0850 := by norm_num
    simp [predictionCorrect, actualPriceWentUp, gt_iff_lt, h]

/-- Witness for C1: the scenario-B instance and the equal-price tie-break,
obtained from `resolution_outcome_strict_direction` at concrete inputs. -/
theorem resolution_outcome_strict_direction_witness :
    predictionCorrect true 1.0850 1.0800 = true
    ∧ actualPriceWentUp 1.08 1.08 = false :=
  ⟨(resolution_outcome_strict_direction ⟨"EUR/USD", true, false⟩ 1.0850 1.0800).2.2.2,
   (resolution_outcome_strict_direction ⟨"EUR/USD", true, false⟩ 1.08 1.08).2.1 rfl⟩

/-- Claim C2 counterexample: when the oracle-side fetch fails, the
route's `getLastPrice` does not signal `OracleDataUnavailable`; it
substitutes the synthetically generated mock price. -/
theorem oracle_failure_not_error_cex :
    getLastPrice "EUR/USD" .fetchError 0 0
      = .ok ⟨generateMockPrice "EUR/USD" 0, 0⟩
    ∧ getLastPrice "EUR/USD" .fetchError 0 0
      ≠ .error .oracleDataUnavailable := by
  constructor
  · rfl
  · simp [getLastPrice]

/-- Claim C2 amended: on an oracle-side fetch failure, a parse failure,
or a non-positive parsed value, `getLastPrice` substitutes the
synthetically generated mock price and reports success; it never
returns an error to its caller. -/
theorem oracle_fallback_substitutes_mock (assetSymbol : String)
    (sim : SimulationOutcome) (now : ℕ) (variation : ℚ) :
    (∃ d, getLastPrice assetSymbol sim now variation = .ok d)
    ∧ (sim = .fetchError ∨ sim = .parseFailure →
        getLastPrice assetSymbol sim now variation
          = .ok ⟨generateMockPrice assetSymbol variation, now⟩)
    ∧ (∀ price ts, sim = .parsedPrice price ts → ¬ 0 < price →
        getLastPrice assetSymbol sim now variation
          = .ok ⟨generateMockPrice assetSymbol variation, now⟩)
    ∧ (∀ e, getLastPrice assetSymbol sim now variation ≠ .error e) := by
  cases sim with
  | fetchError =>
      refine ⟨⟨_, rfl⟩, fun _ => rfl, ?_, ?_⟩
      · intro price ts h
        exact nomatch h
      · intro e h
        exact nomatch h
  | parseFailure =>
      refine ⟨⟨_, rfl⟩, fun _ => rfl, ?_, ?_⟩
      · intro price ts h
        exact nomatch h
      · intro e h
        exact nomatch h
  | parsedPrice price ts =>
      refine ⟨?_, ?_, ?_, ?_⟩
      · by_cases hp : 0 < price
        · exact ⟨⟨price, ts⟩, by simp [getLastPrice, hp]⟩
        · exact ⟨⟨generateMockPrice assetSymbol variation, now⟩,
            by simp [getLastPrice, hp]⟩
      · rintro (h | h) <;> exact nomatch h
      · intro price2 ts2 heq hnpos
        injection heq with h1 h2
        subst h1
        simp [getLastPrice, hnpos]
      · intro e
        by_cases hp : 0 < price <;> simp [getLastPrice, hp]

/-- Witness for C2 amended: both fallback paths at concrete inputs,
via `oracle_fallback_substitutes_mock`. -/
theorem oracle_fallback_substitutes_mock_witness :
    getLastPrice "EUR/USD" .parseFailure 7 0
      = .ok ⟨generateMockPrice "EUR/USD" 0, 7⟩
    ∧ getLastPrice "EUR/USD" (.parsedPrice 0 3) 7 0
      = .ok ⟨generateMockPrice "EUR/USD" 0, 7⟩ :=
  ⟨(oracle_fallback_substitutes_mock "EUR/USD" .parseFailure 7 0).2.1 (Or.inr rfl),
   (oracle_fallback_substitutes_mock "EUR/USD" (.parsedPrice 0 3) 7 0).2.2.1
      0 3 rfl (lt_irrefl 0)⟩

/-- Claim C3 (code bug): the resolve endpoint ignores the parsed
`resolved` flag — a prediction already marked resolved is resolved
again, successfully, with outcome equal to its predicted direction, and
no `AlreadyResolved` error exists on this path (the on-chain
`resolve_prediction` call is commented out). -/
theorem resolve_ignores_resolved_flag :
    resolvedPredictionView.resolved = true
    ∧ resolveEndpoint (some resolvedPredictionView) 1.0856
        = .resolvedJson ⟨true, 1.0856, 1.0856 * 0.995, true, false⟩ := by
  constructor
  · rfl
  · have h : (1.0856 : ℚ) * 0.995 < 1.0856 := by norm_num
    simp [resolveEndpoint, resolvedPredictionView, predictionCorrect,
      actualPriceWentUp, historicalPriceOf, gt_iff_lt, decide_eq_true h]

/-- Claim C4 (code bug): the route never reads the user's token balance
— `kaleBalance` is the hardcoded estimate 1,000,000,000 (part_001:111,
"For now, assume user has sufficient KALE balance"), so a 50% stake by a
user whose actual balance is 1,000,000 units commits 500,000,000 units
and succeeds, although that amount exceeds the actual balance and the
claimed amount is the 500,000 units of `balance * 50 / 100`. -/
theorem stake_uses_estimated_balance :
    prepareStake estimatedKaleBalance 50 = .ok 500000000
    ∧ stakeAmountOf 1000000 50 = 500000
    ∧ (1000000 : Int) < 500000000 := by
  decide

/-- Claim C5 counterexample: a stake percentage of exactly 0 is outside
`(0, 100]` but is not rejected with `InvalidStakePercentage` — the range
check at part_001:63 admits it, and the failure is the low-balance
rejection of the computed zero amount. -/
theorem stake_zero_percent_not_invalid_cex :
    prepareStake estimatedKaleBalance 0 = .error .lowBalance
    ∧ prepareStake estimatedKaleBalance 0 ≠ .error .invalidStakePercentage := by
  decide

/-- Claim C5 amended: percentages below 0 or above 100 are rejected with
`InvalidStakePercentage`; exactly 0 passes the range check and is
rejected with the low-balance error instead (the computed amount is 0);
no percentage is ever clamped — success happens only with the
percentage strictly inside `(0, 100]` and commits exactly the computed
amount. -/
theorem stake_percentage_range_semantics (kaleBalance stakePercentage : Int) :
    (stakePercentage < 0 ∨ 100 < stakePercentage →
      prepareStake kaleBalance stakePercentage = .error .invalidStakePercentage)
    ∧ (∀ b : Int, prepareStake b 0 = .error .lowBalance)
    ∧ (∀ a, prepareStake kaleBalance stakePercentage = .ok a →
        0 < stakePercentage ∧ stakePercentage ≤ 100
          ∧ a = stakeAmountOf kaleBalance stakePercentage) := by
  refine ⟨?_, ?_, ?_⟩
  · intro h
    unfold prepareStake
    rw [if_pos h]
  · intro b
    have hz : stakeAmountOf b 0 = 0 := by
      unfold stakeAmountOf
      rw [mul_zero]
      exact Int.zero_tdiv 100
    unfold prepareStake
    rw [if_neg (by omega), if_pos (by rw [hz])]
  · intro a ha
    unfold prepareStake at ha
    by_cases h1 : stakePercentage < 0 ∨ 100 < stakePercentage
    · rw [if_pos h1] at ha
      exact nomatch ha
    · rw [if_neg h1] at ha
      by_cases h2 : stakeAmountOf kaleBalance stakePercentage ≤ 0
      · rw [if_pos h2] at ha
        exact nomatch ha
      · rw [if_neg h2] at ha
        injection ha with ha2
        have hpos : ¬ stakePercentage = 0 := by
          intro h0
          subst h0
          apply h2
          unfold stakeAmountOf
          rw [mul_zero]
          rw [Int.zero_tdiv 100]
        exact ⟨by omega, by omega, ha2.symm⟩

/-- Witness for C5 amended: rejections at 101 and at 0, via
`stake_percentage_range_semantics`. -/
theorem stake_percentage_range_semantics_witness :
    prepareStake 1000000000 101 = .error .invalidStakePercentage
    ∧ prepareStake 1000000000 0 = .error .lowBalance :=
  ⟨(stake_percentage_range_semantics 1000000000 101).1 (Or.inr (by decide)),
   (stake_percentage_range_semantics 1000000000 101).2.1 1000000000⟩

/-- Claim C6: `form_team` fails with `TeamAlreadyExists` when the name is
taken, with `AlreadyInTeam` when any listed member is already mapped,
and a failed call creates nothing; in scenario E an address mapped to
"alpha" calling `form_team("beta", [that address])` fails with
`AlreadyInTeam` and "beta" is not created. -/
theorem form_team_failure_semantics (s : Registry) (name : String)
    (members : List String) :
    ((lookupTeam s name).isSome = true →
      form_team s name members = .error .teamAlreadyExists)
    ∧ (lookupTeam s name = none →
        (∃ m ∈ members, (getUserTeam s m).isSome = true) →
        form_team s name members = .error .alreadyInTeam)
    ∧ (∀ e, form_team s name members = .error e →
        applyFormTeam s (name, members) = s)
    ∧ (form_team alphaRegistry "beta" ["M"] = .error .alreadyInTeam
        ∧ lookupTeam (applyFormTeam alphaRegistry ("beta", ["M"])) "beta" = none) := by
  refine ⟨?_, ?_, ?_, by decide, by decide⟩
  · intro h
    unfold form_team
    rw [if_pos h]
  · intro h1 h2
    unfold form_team
    rw [if_neg (by rw [h1]; simp), if_pos ?_]
    obtain ⟨m, hm, hsome⟩ := h2
    exact List.any_eq_true.mpr ⟨m, hm, hsome⟩
  · intro e he
    unfold applyFormTeam
    simp only
    rw [he]

/-- Witness for C6: scenario E plus the duplicate-name failure, via
`form_team_failure_semantics` at the alpha registry. -/
theorem form_team_failure_semantics_witness :
    form_team alphaRegistry "alpha" ["N"] = .error .teamAlreadyExists
    ∧ form_team alphaRegistry "beta" ["M"] = .error .alreadyInTeam :=
  ⟨(form_team_failure_semantics alphaRegistry "alpha" ["N"]).1 (by decide),
   (form_team_failure_semantics alphaRegistry "beta" ["M"]).2.1 (by decide)
      ⟨"M", by decide, by decide⟩⟩

/-- Claim C7: after any sequence of `form_team` calls from the empty
registry, every address maps to at most one team, and the membership
index is consistent with the teams' member sets. -/
theorem one_team_per_address_invariant (calls : List (String × List String)) :
    AtMostOneTeam (runFormTeams emptyRegistry calls)
    ∧ IndexConsistent (runFormTeams emptyRegistry calls) :=
  runFormTeams_inv calls emptyRegistry registryInv_empty

/-- Claim C8 counterexample: the prediction-id derivation
`teamName_timestamp_randomSuffix` is not collision-free — in a run
where two distinct invocations observe the same millisecond and the
same base-36 random draw (which nothing in the code rules out), they
derive the same identifier. -/
theorem prediction_id_collision_cex : ¬ IdDerivationCollisionFree :=
  idDerivation_not_collisionFree

/-- Claim C8 amended: the derived ids are not collision-free (two
same-millisecond invocations with equal random draws collide), but an id
that is already present in the prediction store is never reused —
`make_prediction` fails with `PredictionExists` on it. -/
theorem prediction_id_reuse_rejected (preds : PredictionStore) (reg : Registry)
    (id team asset : String) (direction : Bool) (stakeAmt pct : Int)
    (predictor : String) (now : ℕ)
    (h : (lookupPrediction preds id).isSome = true) :
    make_prediction preds reg id team asset direction stakeAmt pct predictor now
      = .error .predictionExists
    ∧ ¬ IdDerivationCollisionFree := by
  constructor
  · unfold make_prediction
    rw [if_pos h]
  · exact idDerivation_not_collisionFree

/-- Witness for C8 amended: reusing the stored id "p1" fails with
`PredictionExists`, via `prediction_id_reuse_rejected`. -/
theorem prediction_id_reuse_rejected_witness :
    make_prediction [("p1", p1Record)] alphaRegistry "p1" "alpha" "EUR/USD"
        true 500000 50 "M" 1
      = .error .predictionExists :=
  (prediction_id_reuse_rejected [("p1", p1Record)] alphaRegistry "p1" "alpha"
    "EUR/USD" true 500000 50 "M" 1 (by decide)).1

/-- Claim C9: the user-team read path leaves the registry state
unchanged, answers an unmapped address with an explicit success carrying
no team (not an error), and answers a mapped address with that team's
name. -/
theorem get_user_team_readonly (s : Registry) (addr : String) :
    (get_user_team_call s addr).2 = s
    ∧ (getUserTeam s addr = none →
        (get_user_team_call s addr).1
          = ⟨true, none, "User is not a member of any team"⟩)
    ∧ (∀ t, getUserTeam s addr = some t →
        (get_user_team_call s addr).1
          = ⟨true, some t, "Team membership found"⟩) := by
  refine ⟨rfl, ?_, ?_⟩
  · intro h
    simp [get_user_team_call, getUserTeamRoute, h]
  · intro t h
    simp [get_user_team_call, getUserTeamRoute, h]

/-- Witness for C9: the mapped member "M" and an unmapped address "Z"
against the alpha registry, via `get_user_team_readonly`. -/
theorem get_user_team_readonly_witness :
    (get_user_team_call alphaRegistry "M").1
      = ⟨true, some "alpha", "Team membership found"⟩
    ∧ (get_user_team_call alphaRegistry "Z").1
      = ⟨true, none, "User is not a member of any team"⟩ :=
  ⟨(get_user_team_readonly alphaRegistry "M").2.2 "alpha" (by decide),
   (get_user_team_readonly alphaRegistry "Z").2.1 (by decide)⟩

/-- Claim C10 (implicit): the endpoint's reference price is always
`0.995 ×` the fetched current price, so for any positive current price
the computed actual direction is "rise" and the returned outcome always
equals the prediction's stored direction. -/
theorem reference_price_always_below_current (p : PredictionView) (cur : ℚ)
    (hpos : 0 < cur) :
    historicalPriceOf cur < cur
    ∧ actualPriceWentUp cur (historicalPriceOf cur) = true
    ∧ (∀ r, resolveEndpoint (some p) cur = .resolvedJson r → r.outcome = p.prediction) := by
  have h : historicalPriceOf cur < cur := by
    unfold historicalPriceOf
    have := mul_lt_of_lt_one_right hpos (show (0.995 : ℚ) < 1 by norm_num)
    exact this
  refine ⟨h, ?_, ?_⟩
  · unfold actualPriceWentUp
    simp [gt_iff_lt, h]
  · intro r hr
    simp only [resolveEndpoint, ResolveResult.resolvedJson.injEq] at hr
    rw [← hr]
    simp only [predictionCorrect, actualPriceWentUp, gt_iff_lt, decide_eq_true h]
    cases p.prediction <;> rfl

/-- Witness for C10: at current price 2 the derived reference stays
below and the outcome equals the prediction, via
`reference_price_always_below_current`. -/
theorem reference_price_always_below_current_witness :
    historicalPriceOf 2 < 2
    ∧ actualPriceWentUp 2 (historicalPriceOf 2) = true :=
  ⟨(reference_price_always_below_current ⟨"EUR/USD", true, false⟩ 2 two_pos).1,
   (reference_price_always_below_current ⟨"EUR/USD", true, false⟩ 2 two_pos).2.1⟩

end Kaleracle
